import Mathlib

/-!
Shallow embedding of the Notary Management backend
(`backend/main.py` and `schemas.py`) and proofs about its
case/appointment workflow core.

Datetimes are modelled as six-field civil timestamps compared
lexicographically (UTC, no timezone arithmetic appears in the code).
The Mongo store is modelled as association lists per collection, and
each endpoint is a pure function from (role, store, payload, now) to the
updated store together with either a result or an HTTP error, mirroring
`raise HTTPException(status_code, detail)`.
-/

/-- A civil UTC timestamp, as produced by Python `datetime`.
Chronological order on valid datetimes is lexicographic on the fields. -/
structure DateTime where
  year : Nat
  month : Nat
  day : Nat
  hour : Nat
  minute : Nat
  second : Nat
deriving DecidableEq, Repr

/-- Strict lexicographic order on lists of naturals. -/
def lexLt : List Nat → List Nat → Bool
  | [], [] => false
  | [], _ :: _ => true
  | _ :: _, [] => false
  | a :: as, b :: bs => a < b || (a = b && lexLt as bs)

def DateTime.fields (t : DateTime) : List Nat :=
  [t.year, t.month, t.day, t.hour, t.minute, t.second]

/-- `a < b` on datetimes (Python `datetime` comparison). -/
def DateTime.ltb (a b : DateTime) : Bool :=
  lexLt a.fields b.fields

/-- `a ≤ b` on datetimes. -/
def DateTime.leb (a b : DateTime) : Bool :=
  !(lexLt b.fields a.fields)

/-- Pydantic `Client` (schemas.py). -/
structure Client where
  first_name : String
  last_name : String
  email : String
  phone : Option String
  address : Option String
  city : Option String
  country : Option String
  notes : Option String
deriving DecidableEq, Repr

/-- Pydantic `Case` (schemas.py): `client_id` is a required string. -/
structure Case where
  client_id : String
  title : String
  type : String
  status : String
  description : Option String
  assigned_to : Option String
  due_date : Option DateTime
deriving DecidableEq, Repr

/-- Pydantic `Appointment` (schemas.py). -/
structure Appointment where
  client_id : Option String
  service : String
  start_time : DateTime
  end_time : DateTime
  location : Option String
  notes : Option String
  status : String
  case_id : Option String
deriving DecidableEq, Repr

/-- Pydantic `AuditLog` (schemas.py); `details` is a string map. -/
structure AuditLog where
  actor_role : String
  actor_id : Option String
  action : String
  entity : String
  entity_id : Option String
  details : Option (List (String × String))
deriving DecidableEq, Repr

/-- The `CaseStatus` literal values of schemas.py, also the local
`allowed` list inside `update_case_status`. -/
def caseStatusValues : List String :=
  ["New", "Draft", "Waiting Signature", "Completed", "Archived"]

/-- The `Appointment.status` literal values of schemas.py. -/
def appointmentStatusValues : List String :=
  ["Scheduled", "Completed", "Cancelled"]

/-- A stored case document: the pydantic record plus the `updated_at`
field that `update_case_status` adds via `$set`. -/
structure StoredCase where
  doc : Case
  updated_at : Option DateTime
deriving DecidableEq, Repr

/-- Modelled from the spec: `create_document` lives in `database.py`,
which is not part of the sources; per the spec it persists the record
under a fresh id and stamps a creation timestamp, which the dashboard
reads back as `created_at`. -/
structure StoredAudit where
  log : AuditLog
  created_at : DateTime
deriving DecidableEq, Repr

/-- The Mongo database, one association list per collection used by the
workflow core; `nextId` feeds fresh object ids. -/
structure Store where
  clients : List (String × Client)
  cases : List (String × StoredCase)
  appointments : List (String × Appointment)
  auditlogs : List (String × StoredAudit)
  nextId : Nat
deriving Repr

/-- An `HTTPException(status_code, detail)`. -/
structure HTTPError where
  status : Nat
  detail : String
deriving DecidableEq, Repr

deriving instance DecidableEq for Except

def isHexChar (c : Char) : Bool :=
  c.isDigit || (('a' ≤ c) && (c ≤ 'f')) || (('A' ≤ c) && (c ≤ 'F'))

/-- `oid` accepts exactly the 24-character hexadecimal strings that
`bson.ObjectId` parses; anything else raises the 400 "Invalid id". -/
def isValidOid (s : String) : Bool :=
  s.toList.length = 24 && s.toList.all isHexChar

/-- Fresh ids produced by the store: the counter rendered as a
24-character hexadecimal string. -/
def genId (n : Nat) : String :=
  String.mk (List.replicate (24 - (Nat.toDigits 16 n).length) '0' ++ Nat.toDigits 16 n)

/-- `require_role(allowed)`: the request's role must be a member. -/
def roleAllowed (allowed : List String) (role : String) : Bool :=
  allowed.contains role

/-- The `oid` helper: parse or raise 400. -/
def oid (s : String) : Except HTTPError String :=
  if isValidOid s then Except.ok s else Except.error ⟨400, "Invalid id or bson not available"⟩

/-- Append a case document (`create_document("case", payload)`). -/
def createCaseDoc (st : Store) (payload : Case) : Store × String :=
  let new_id := genId st.nextId
  ({ st with cases := st.cases ++ [(new_id, ⟨payload, none⟩)], nextId := st.nextId + 1 }, new_id)

/-- Append an appointment document (`create_document("appointment", payload)`). -/
def createAppointmentDoc (st : Store) (payload : Appointment) : Store × String :=
  let new_id := genId st.nextId
  ({ st with appointments := st.appointments ++ [(new_id, payload)], nextId := st.nextId + 1 }, new_id)

/-- Append an audit document (`create_document("auditlog", ...)`), stamping
`created_at` with the current time (see `StoredAudit`). -/
def createAuditDoc (st : Store) (log : AuditLog) (now : DateTime) : Store × String :=
  let new_id := genId st.nextId
  ({ st with auditlogs := st.auditlogs ++ [(new_id, ⟨log, now⟩)], nextId := st.nextId + 1 }, new_id)

/-- `POST /cases` (`create_case` in main.py): role gate, truthiness check on
`payload.client_id`, `oid` parse, client existence check, then persist the
payload and an audit record with hardcoded `actor_role="assistant"`. -/
def create_case (role : String) (st : Store) (payload : Case) (now : DateTime) :
    Store × Except HTTPError String :=
  if !(roleAllowed ["notary", "assistant"] role) then
    (st, Except.error ⟨403, "Forbidden for role"⟩)
  else if payload.client_id ≠ "" then
    match oid payload.client_id with
    | Except.error e => (st, Except.error e)
    | Except.ok cid =>
      if (st.clients.filter (fun p => p.1 = cid)).isEmpty then
        (st, Except.error ⟨404, "Client not found"⟩)
      else
        let r1 := createCaseDoc st payload
        let r2 := createAuditDoc r1.1 ⟨"assistant", none, "create", "case", some r1.2, none⟩ now
        (r2.1, Except.ok r1.2)
  else
    let r1 := createCaseDoc st payload
    let r2 := createAuditDoc r1.1 ⟨"assistant", none, "create", "case", some r1.2, none⟩ now
    (r2.1, Except.ok r1.2)

/-- `update_one` on the case collection: `$set` status and `updated_at` on the
first document whose `_id` matches. -/
def updateFirstCase (l : List (String × StoredCase)) (cid status : String) (now : DateTime) :
    List (String × StoredCase) :=
  match l with
  | [] => []
  | p :: rest =>
    if p.1 = cid then (p.1, ⟨{ p.2.doc with status := status }, some now⟩) :: rest
    else p :: updateFirstCase rest cid status now

/-- `PATCH /cases/case_id/status` (`update_case_status` in main.py):
role gate, enum check, `oid` parse, `update_one`, 404 on zero matches,
then the `update_status` audit record. -/
def update_case_status (role : String) (st : Store) (case_id status : String) (now : DateTime) :
    Store × Except HTTPError Bool :=
  if !(roleAllowed ["notary", "assistant"] role) then
    (st, Except.error ⟨403, "Forbidden for role"⟩)
  else if !(caseStatusValues.contains status) then
    (st, Except.error ⟨400, "Invalid status"⟩)
  else
    match oid case_id with
    | Except.error e => (st, Except.error e)
    | Except.ok cid =>
      let matched := st.cases.any (fun p => p.1 = cid)
      let st1 := { st with cases := updateFirstCase st.cases cid status now }
      if !matched then
        (st1, Except.error ⟨404, "Case not found"⟩)
      else
        let r2 := createAuditDoc st1
          ⟨"assistant", none, "update_status", "case", some case_id, some [("status", status)]⟩ now
        (r2.1, Except.ok true)

/-- The conflict test of `public_create_appointment`:
existing `start_time < new end` and existing `end_time > new start`. -/
def overlapsB (a : Appointment) (s e : DateTime) : Bool :=
  DateTime.ltb a.start_time e && DateTime.ltb s a.end_time

/-- `POST /appointments/public` (`public_create_appointment` in main.py):
reject `end_time <= start_time`, scan every appointment document for an
overlap regardless of its status, then persist the payload and a `book`
audit record with `actor_role="client"`. -/
def public_create_appointment (st : Store) (payload : Appointment) (now : DateTime) :
    Store × Except HTTPError String :=
  if DateTime.leb payload.end_time payload.start_time then
    (st, Except.error ⟨400, "Invalid time range"⟩)
  else if st.appointments.any (fun p => overlapsB p.2 payload.start_time payload.end_time) then
    (st, Except.error ⟨409, "Time slot not available"⟩)
  else
    let r1 := createAppointmentDoc st payload
    let r2 := createAuditDoc r1.1 ⟨"client", none, "book", "appointment", some r1.2, none⟩ now
    (r2.1, Except.ok r1.2)

/-- Gregorian leap year, as Python's `calendar`/`datetime` use. -/
def isLeap (y : Nat) : Bool :=
  (y % 4 = 0 && y % 100 ≠ 0) || y % 400 = 0

/-- Days in a month, validating `datetime(year, month, day)`. -/
def daysInMonth (y m : Nat) : Nat :=
  if m = 2 then (if isLeap y then 29 else 28)
  else if m = 4 || m = 6 || m = 9 || m = 11 then 30
  else 31

def digitsToNat (cs : List Char) : Nat :=
  cs.foldl (fun acc c => acc * 10 + (c.toNat - 48)) 0

def isDigits (cs : List Char) : Bool :=
  !cs.isEmpty && cs.all Char.isDigit

/-- `datetime.strptime(day, "%Y-%m-%d")`: `%Y` matches exactly four
digits, `%m` and `%d` one or two, the whole string must match, and the
`datetime` constructor then validates the calendar date (year at least
1, day at most the month length). -/
def parseDay (s : String) : Option (Nat × Nat × Nat) :=
  match List.splitOn '-' s.toList with
  | [ys, ms, ds] =>
    if ys.length = 4 ∧ isDigits ys
        ∧ 1 ≤ ms.length ∧ ms.length ≤ 2 ∧ isDigits ms
        ∧ 1 ≤ ds.length ∧ ds.length ≤ 2 ∧ isDigits ds then
      let y := digitsToNat ys
      let m := digitsToNat ms
      let d := digitsToNat ds
      if 1 ≤ y ∧ 1 ≤ m ∧ m ≤ 12 ∧ 1 ≤ d ∧ d ≤ daysInMonth y m then
        some (y, m, d)
      else none
    else none
  | _ => none

/-- `datetime(y, m, d)` — midnight opening the given day. -/
def dayStart (y m d : Nat) : DateTime :=
  ⟨y, m, d, 0, 0, 0⟩

/-- `datetime(y, m, d) + timedelta(days=1)` — midnight of the next
calendar day. -/
def nextDayStart (y m d : Nat) : DateTime :=
  if d < daysInMonth y m then ⟨y, m, d + 1, 0, 0, 0⟩
  else if m < 12 then ⟨y, m + 1, 1, 0, 0, 0⟩
  else ⟨y + 1, 1, 1, 0, 0, 0⟩

/-- The day filter of `list_appointments`:
`{"start_time": {"$gte": start, "$lt": end}}`. -/
def inDayRange (start stop : DateTime) (a : Appointment) : Bool :=
  DateTime.leb start a.start_time && DateTime.ltb a.start_time stop

/-- Ascending comparison on `start_time` for `.sort("start_time", 1)`. -/
def byStartTime (a b : Appointment) : Bool :=
  DateTime.leb a.start_time b.start_time

/-- `GET /appointments` (`list_appointments` in main.py): role gate;
the guard is Python truthiness (`if day:`), so an absent day and the
empty string both keep the empty filter and return every appointment;
a non-empty day is parsed with `strptime("%Y-%m-%d")` (400 on failure)
and restricts to `[day 00:00, day+1 00:00)`; the result is sorted
ascending by `start_time`. -/
def list_appointments (role : String) (st : Store) (day : Option String) :
    Except HTTPError (List Appointment) :=
  if !(roleAllowed ["notary", "assistant"] role) then
    Except.error ⟨403, "Forbidden for role"⟩
  else
    match day with
    | none => Except.ok ((st.appointments.map Prod.snd).mergeSort byStartTime)
    | some s =>
      if s = "" then Except.ok ((st.appointments.map Prod.snd).mergeSort byStartTime)
      else
        match parseDay s with
        | none => Except.error ⟨400, "Invalid day format"⟩
        | some (y, m, d) =>
          Except.ok (((st.appointments.map Prod.snd).filter
            (inDayRange (dayStart y m d) (nextDayStart y m d))).mergeSort byStartTime)

/-- Descending comparison on `created_at` for `.sort("created_at", -1)`. -/
def byCreatedAtDesc (a b : StoredAudit) : Bool :=
  DateTime.leb b.created_at a.created_at

/-- The result of `GET /dashboard`. -/
structure DashboardSummary where
  appointments_today : Nat
  open_cases : Nat
  completed_cases : Nat
  recent_activity : List StoredAudit
deriving Repr

/-- `GET /dashboard` (`dashboard` in main.py): role gate; formats
`utcnow` as `%Y-%m-%d` and reparses it, i.e. today's midnight and the
next midnight bound the appointment count; counts open and completed
cases; returns the audit log sorted by `created_at` descending,
limited to 10. -/
def dashboard (role : String) (st : Store) (now : DateTime) :
    Except HTTPError DashboardSummary :=
  if !(roleAllowed ["notary", "assistant"] role) then
    Except.error ⟨403, "Forbidden for role"⟩
  else
    let start := dayStart now.year now.month now.day
    let stop := nextDayStart now.year now.month now.day
    let appts_today := (st.appointments.map Prod.snd).countP (inDayRange start stop)
    let open_cases := (st.cases.map Prod.snd).countP
      (fun c => ["New", "Draft", "Waiting Signature"].contains c.doc.status)
    let completed := (st.cases.map Prod.snd).countP (fun c => c.doc.status = "Completed")
    let recent := ((st.auditlogs.map Prod.snd).mergeSort byCreatedAtDesc).take 10
    Except.ok ⟨appts_today, open_cases, completed, recent⟩

/-! ### Order lemmas for the lexicographic datetime comparison -/

theorem lexLt_irrefl : ∀ (as : List Nat), lexLt as as = false := by
  intro as
  induction as with
  | nil => rfl
  | cons a as ih => simp [lexLt, ih]

theorem lexLt_trans :
    ∀ (as bs cs : List Nat), lexLt as bs = true → lexLt bs cs = true → lexLt as cs = true := by
  intro as
  induction as with
  | nil =>
    intro bs cs h1 h2
    cases bs with
    | nil => simp [lexLt] at h1
    | cons b bs =>
      cases cs with
      | nil => simp [lexLt] at h2
      | cons c cs => simp [lexLt]
  | cons a as ih =>
    intro bs cs h1 h2
    cases bs with
    | nil => simp [lexLt] at h1
    | cons b bs =>
      cases cs with
      | nil => simp [lexLt] at h2
      | cons c cs =>
        simp only [lexLt, Bool.or_eq_true, Bool.and_eq_true, decide_eq_true_eq] at h1 h2 ⊢
        rcases h1 with h1 | ⟨rfl, h1⟩
        · rcases h2 with h2 | ⟨rfl, h2⟩
          · exact Or.inl (Nat.lt_trans h1 h2)
          · exact Or.inl h1
        · rcases h2 with h2 | ⟨rfl, h2⟩
          · exact Or.inl h2
          · exact Or.inr ⟨rfl, ih bs cs h1 h2⟩

theorem lexLt_connex :
    ∀ (as bs : List Nat), lexLt as bs = false → lexLt bs as = false → as = bs := by
  intro as
  induction as with
  | nil =>
    intro bs h1 h2
    cases bs with
    | nil => rfl
    | cons b bs => simp [lexLt] at h1
  | cons a as ih =>
    intro bs h1 h2
    cases bs with
    | nil => simp [lexLt] at h2
    | cons b bs =>
      simp only [lexLt, Bool.or_eq_false_iff, Bool.and_eq_false_iff, decide_eq_false_iff_not] at h1 h2
      have hab : a = b := Nat.le_antisymm (Nat.not_lt.mp h2.1) (Nat.not_lt.mp h1.1)
      subst hab
      rcases h1.2 with h | h
      · simp at h
      · rcases h2.2 with h' | h'
        · simp at h'
        · rw [ih bs h h']

theorem lexLt_asymm :
    ∀ (as bs : List Nat), lexLt as bs = true → lexLt bs as = false := by
  intro as bs h1
  cases h2 : lexLt bs as with
  | false => rfl
  | true =>
    have := lexLt_trans as bs as h1 h2
    rw [lexLt_irrefl] at this
    exact absurd this (by simp)

theorem DateTime.leb_trans (a b c : DateTime) :
    DateTime.leb a b = true → DateTime.leb b c = true → DateTime.leb a c = true := by
  unfold DateTime.leb
  intro h1 h2
  simp only [Bool.not_eq_true'] at h1 h2 ⊢
  cases hab : lexLt a.fields b.fields with
  | false => exact (lexLt_connex _ _ hab h1) ▸ h2
  | true =>
    cases hca : lexLt c.fields a.fields with
    | false => rfl
    | true =>
      have := lexLt_trans c.fields a.fields b.fields hca hab
      rw [this] at h2
      exact h2

theorem DateTime.leb_total (a b : DateTime) :
    (DateTime.leb a b || DateTime.leb b a) = true := by
  unfold DateTime.leb
  cases h : lexLt b.fields a.fields with
  | false => simp
  | true => simp [lexLt_asymm _ _ h]

theorem DateTime.ltb_leb (a b : DateTime) :
    DateTime.ltb a b = true → DateTime.leb b a = false := by
  unfold DateTime.ltb DateTime.leb
  intro h
  simp [h]

theorem DateTime.ltb_irrefl (a : DateTime) : DateTime.ltb a a = false := by
  unfold DateTime.ltb
  exact lexLt_irrefl _

theorem byStartTime_trans (a b c : Appointment) :
    byStartTime a b = true → byStartTime b c = true → byStartTime a c = true :=
  DateTime.leb_trans _ _ _

theorem byStartTime_total (a b : Appointment) :
    (byStartTime a b || byStartTime b a) = true :=
  DateTime.leb_total _ _

theorem byCreatedAtDesc_trans (a b c : StoredAudit) :
    byCreatedAtDesc a b = true → byCreatedAtDesc b c = true → byCreatedAtDesc a c = true :=
  fun h1 h2 => DateTime.leb_trans _ _ _ h2 h1

theorem byCreatedAtDesc_total (a b : StoredAudit) :
    (byCreatedAtDesc a b || byCreatedAtDesc b a) = true :=
  Bool.or_comm _ _ ▸ DateTime.leb_total _ _

/-! ### Booking helper lemmas -/

theorem book_conflict_eq (st : Store) (p : Appointment) (now : DateTime)
    (h1 : DateTime.ltb p.start_time p.end_time = true)
    (h2 : st.appointments.any (fun q => overlapsB q.2 p.start_time p.end_time) = true) :
    public_create_appointment st p now = (st, Except.error ⟨409, "Time slot not available"⟩) := by
  simp [public_create_appointment, DateTime.ltb_leb _ _ h1, h2]

theorem book_success_eq (st : Store) (p : Appointment) (now : DateTime)
    (h1 : DateTime.ltb p.start_time p.end_time = true)
    (h2 : st.appointments.any (fun q => overlapsB q.2 p.start_time p.end_time) = false) :
    public_create_appointment st p now =
      ({ st with
          appointments := st.appointments ++ [(genId st.nextId, p)],
          auditlogs := st.auditlogs ++
            [(genId (st.nextId + 1),
              ⟨⟨"client", none, "book", "appointment", some (genId st.nextId), none⟩, now⟩)],
          nextId := st.nextId + 2 },
        Except.ok (genId st.nextId)) := by
  simp [public_create_appointment, DateTime.ltb_leb _ _ h1, h2, createAppointmentDoc,
    createAuditDoc]

/-! ### Fixtures -/

def hourDT (h : Nat) : DateTime := ⟨2024, 1, 1, h, 0, 0⟩

def sampleAppt (s e : Nat) (status : String) : Appointment :=
  ⟨none, "notarization", hourDT s, hourDT e, none, none, status, none⟩

def emptyStore : Store := ⟨[], [], [], [], 0⟩

/-- A store whose only appointment is Cancelled, 10:00–11:00. -/
def cancelledStore : Store :=
  ⟨[], [], [("aaaaaaaaaaaaaaaaaaaaaaaa", sampleAppt 10 11 "Cancelled")], [], 0⟩

/-! ### C1 -/

/-- C1 counterexample: every appointment of `cancelledStore` is Cancelled,
yet booking the overlapping slot 10:00–11:00 fails with the 409 conflict
instead of succeeding — the conflict scan does not exclude Cancelled
appointments. -/
theorem cancelled_excluded_from_scan_cex :
    (∀ q ∈ cancelledStore.appointments, q.2.status = "Cancelled") ∧
    DateTime.ltb (sampleAppt 10 11 "Scheduled").start_time
      (sampleAppt 10 11 "Scheduled").end_time = true ∧
    (public_create_appointment cancelledStore (sampleAppt 10 11 "Scheduled") (hourDT 0)).2 =
      Except.error ⟨409, "Time slot not available"⟩ := by
  decide

/-- C1 amended: the conflict scan includes Cancelled appointments — a
booking request with a valid interval that overlaps an existing
appointment fails with ConflictError even when every stored appointment
(hence every overlapping one) is in Cancelled state. -/
theorem cancelled_not_excluded_from_scan (st : Store) (p : Appointment) (now : DateTime)
    (h1 : DateTime.ltb p.start_time p.end_time = true)
    (hc : ∀ q ∈ st.appointments, q.2.status = "Cancelled")
    (ho : ∃ q ∈ st.appointments, overlapsB q.2 p.start_time p.end_time = true) :
    (public_create_appointment st p now).2 = Except.error ⟨409, "Time slot not available"⟩ := by
  have h2 : st.appointments.any (fun q => overlapsB q.2 p.start_time p.end_time) = true :=
    List.any_eq_true.mpr ho
  rw [book_conflict_eq st p now h1 h2]

/-- C1 amended witness at the concrete Cancelled-only store. -/
theorem cancelled_not_excluded_from_scan_witness :
    (public_create_appointment cancelledStore (sampleAppt 10 11 "Scheduled") (hourDT 0)).2 =
      Except.error ⟨409, "Time slot not available"⟩ :=
  cancelled_not_excluded_from_scan cancelledStore (sampleAppt 10 11 "Scheduled") (hourDT 0)
    (by decide) (by decide) ⟨("aaaaaaaaaaaaaaaaaaaaaaaa", sampleAppt 10 11 "Cancelled"),
      by decide, by decide⟩

/-! ### C2 -/

/-- C2: with a valid interval, booking fails with ConflictError exactly
when some existing appointment half-open-overlaps the request
(existing.start < new.end and existing.end > new.start); from a store
with no appointments, two touching requests (first.end = second.start)
both succeed sequentially, and two strictly overlapping requests yield
one success then one ConflictError (the overlap hypotheses are symmetric
in the two requests, so this covers both orders). -/
theorem booking_conflict_characterization :
    (∀ (st : Store) (p : Appointment) (now : DateTime),
      DateTime.ltb p.start_time p.end_time = true →
      ((public_create_appointment st p now).2 = Except.error ⟨409, "Time slot not available"⟩ ↔
        ∃ q ∈ st.appointments,
          DateTime.ltb q.2.start_time p.end_time = true ∧
          DateTime.ltb p.start_time q.2.end_time = true))
    ∧ (∀ (st : Store) (a b : Appointment) (n1 n2 : DateTime),
      st.appointments = [] →
      DateTime.ltb a.start_time a.end_time = true →
      DateTime.ltb b.start_time b.end_time = true →
      a.end_time = b.start_time →
      (∃ i, (public_create_appointment st a n1).2 = Except.ok i) ∧
      (∃ j, (public_create_appointment (public_create_appointment st a n1).1 b n2).2 =
        Except.ok j))
    ∧ (∀ (st : Store) (a b : Appointment) (n1 n2 : DateTime),
      st.appointments = [] →
      DateTime.ltb a.start_time a.end_time = true →
      DateTime.ltb b.start_time b.end_time = true →
      DateTime.ltb a.start_time b.end_time = true →
      DateTime.ltb b.start_time a.end_time = true →
      (∃ i, (public_create_appointment st a n1).2 = Except.ok i) ∧
      (public_create_appointment (public_create_appointment st a n1).1 b n2).2 =
        Except.error ⟨409, "Time slot not available"⟩) := by
  refine ⟨?_, ?_, ?_⟩
  · intro st p now h1
    cases hany : st.appointments.any (fun q => overlapsB q.2 p.start_time p.end_time) with
    | true =>
      rw [book_conflict_eq st p now h1 hany]
      constructor
      · intro _
        simpa [overlapsB, Bool.and_eq_true] using List.any_eq_true.mp hany
      · intro _
        rfl
    | false =>
      rw [book_success_eq st p now h1 hany]
      constructor
      · intro h
        simp at h
      · intro hex
        rcases hex with ⟨q, hq, hlt1, hlt2⟩
        have : st.appointments.any (fun q => overlapsB q.2 p.start_time p.end_time) = true :=
          List.any_eq_true.mpr ⟨q, hq, by simp [overlapsB, hlt1, hlt2]⟩
        rw [this] at hany
        exact absurd hany (by simp)
  · intro st a b n1 n2 hemp ha hb htouch
    have hany1 : st.appointments.any (fun q => overlapsB q.2 a.start_time a.end_time) = false := by
      rw [hemp]; rfl
    have hstep := book_success_eq st a n1 ha hany1
    have hany2 : (st.appointments ++ [(genId st.nextId, a)]).any
        (fun q => overlapsB q.2 b.start_time b.end_time) = false := by
      rw [hemp]
      simp [overlapsB, htouch, DateTime.ltb_irrefl]
    constructor
    · exact ⟨genId st.nextId, by rw [hstep]⟩
    · rw [hstep]
      exact ⟨genId (st.nextId + 2), by rw [book_success_eq _ b n2 hb hany2]⟩
  · intro st a b n1 n2 hemp ha hb hov1 hov2
    have hany1 : st.appointments.any (fun q => overlapsB q.2 a.start_time a.end_time) = false := by
      rw [hemp]; rfl
    have hstep := book_success_eq st a n1 ha hany1
    have hany2 : (st.appointments ++ [(genId st.nextId, a)]).any
        (fun q => overlapsB q.2 b.start_time b.end_time) = true := by
      rw [hemp]
      simp [overlapsB, hov1, hov2]
    constructor
    · exact ⟨genId st.nextId, by rw [hstep]⟩
    · rw [hstep]
      rw [book_conflict_eq _ b n2 hb hany2]

/-- C2 witness: conflict characterization and both sequential scenarios
at concrete appointments 9–10, 10–11 (touching) and 9–11, 10–12
(strictly overlapping). -/
theorem booking_conflict_characterization_witness :
    ((public_create_appointment cancelledStore (sampleAppt 10 11 "Scheduled") (hourDT 0)).2 =
        Except.error ⟨409, "Time slot not available"⟩ ↔
      ∃ q ∈ cancelledStore.appointments,
        DateTime.ltb q.2.start_time (sampleAppt 10 11 "Scheduled").end_time = true ∧
        DateTime.ltb (sampleAppt 10 11 "Scheduled").start_time q.2.end_time = true) ∧
    ((∃ i, (public_create_appointment emptyStore (sampleAppt 9 10 "Scheduled") (hourDT 0)).2 =
        Except.ok i) ∧
      (∃ j, (public_create_appointment
        (public_create_appointment emptyStore (sampleAppt 9 10 "Scheduled") (hourDT 0)).1
        (sampleAppt 10 11 "Scheduled") (hourDT 0)).2 = Except.ok j)) ∧
    ((∃ i, (public_create_appointment emptyStore (sampleAppt 9 11 "Scheduled") (hourDT 0)).2 =
        Except.ok i) ∧
      (public_create_appointment
        (public_create_appointment emptyStore (sampleAppt 9 11 "Scheduled") (hourDT 0)).1
        (sampleAppt 10 12 "Scheduled") (hourDT 0)).2 =
        Except.error ⟨409, "Time slot not available"⟩) :=
  ⟨booking_conflict_characterization.1 cancelledStore (sampleAppt 10 11 "Scheduled") (hourDT 0)
      (by decide),
    booking_conflict_characterization.2.1 emptyStore (sampleAppt 9 10 "Scheduled")
      (sampleAppt 10 11 "Scheduled") (hourDT 0) (hourDT 0) rfl (by decide) (by decide) (by decide),
    booking_conflict_characterization.2.2 emptyStore (sampleAppt 9 11 "Scheduled")
      (sampleAppt 10 12 "Scheduled") (hourDT 0) (hourDT 0) rfl (by decide) (by decide) (by decide)
      (by decide)⟩

/-! ### create_case helper lemmas -/

theorem DateTime.leb_false_ltb (a b : DateTime) :
    DateTime.leb a b = false → DateTime.ltb b a = true := by
  unfold DateTime.leb DateTime.ltb
  intro h
  simpa using h

/-- On success, `create_case` returns the fresh case id and appends
exactly one case document (the payload itself) and one audit document. -/
theorem create_case_ok_eq (role : String) (st : Store) (p : Case) (now : DateTime) (id : String)
    (h : (create_case role st p now).2 = Except.ok id) :
    id = genId st.nextId ∧
    (create_case role st p now).1 =
      { st with
          cases := st.cases ++ [(genId st.nextId, ⟨p, none⟩)],
          auditlogs := st.auditlogs ++
            [(genId (st.nextId + 1),
              ⟨⟨"assistant", none, "create", "case", some (genId st.nextId), none⟩, now⟩)],
          nextId := st.nextId + 2 } := by
  unfold create_case at h ⊢
  by_cases hrole : roleAllowed ["notary", "assistant"] role
  case neg => simp [hrole] at h
  case pos =>
    by_cases hcid : p.client_id = ""
    · simp [hrole, hcid, createCaseDoc, createAuditDoc] at h ⊢
      exact h.symm
    · unfold oid at h ⊢
      by_cases hv : isValidOid p.client_id
      · by_cases hemp : (st.clients.filter (fun q => q.1 = p.client_id)).isEmpty
        · simp [hrole, hcid, hv, hemp] at h
        · simp [hrole, hcid, hv, hemp, createCaseDoc, createAuditDoc] at h ⊢
          exact h.symm
      · simp [hrole, hcid, hv] at h

/-- On success, `public_create_appointment` returns the fresh id and
appends exactly the payload and one audit document. -/
theorem public_create_appointment_ok_eq (st : Store) (p : Appointment) (now : DateTime)
    (id : String) (h : (public_create_appointment st p now).2 = Except.ok id) :
    id = genId st.nextId ∧
    public_create_appointment st p now =
      ({ st with
          appointments := st.appointments ++ [(genId st.nextId, p)],
          auditlogs := st.auditlogs ++
            [(genId (st.nextId + 1),
              ⟨⟨"client", none, "book", "appointment", some (genId st.nextId), none⟩, now⟩)],
          nextId := st.nextId + 2 },
        Except.ok (genId st.nextId)) := by
  by_cases h1 : DateTime.leb p.end_time p.start_time
  · simp [public_create_appointment, h1] at h
  · have hlt := DateTime.leb_false_ltb _ _ (by simpa using h1)
    cases hany : st.appointments.any (fun q => overlapsB q.2 p.start_time p.end_time) with
    | true =>
      rw [book_conflict_eq st p now hlt hany] at h
      simp at h
    | false =>
      have hs := book_success_eq st p now hlt hany
      rw [hs] at h
      simp at h
      exact ⟨h.symm, hs⟩

/-! ### C3 -/

/-- A valid `Case` payload whose status field is "Draft". -/
def draftPayload : Case := ⟨"", "Deed of Sale", "Affidavit", "Draft", none, none, none⟩

/-- C3 counterexample: `create_case` accepts the pydantic-valid payload
whose status field is "Draft" and persists it with status "Draft", not
"New". -/
theorem create_case_status_new_cex :
    draftPayload.status ∈ caseStatusValues ∧
    (create_case "notary" emptyStore draftPayload (hourDT 0)).2 = Except.ok (genId 0) ∧
    ((create_case "notary" emptyStore draftPayload (hourDT 0)).1.cases.map
      (fun q => q.2.doc.status)) = ["Draft"] := by
  decide

/-- C3 amended: on success `create_case` persists the payload record
verbatim, so the stored status equals the payload's status field —
which is "New" only because pydantic defaults the field to "New" when
the request omits it, not because the endpoint sets it. -/
theorem create_case_persists_payload_status (role : String) (st : Store) (p : Case)
    (now : DateTime) (id : String) (h : (create_case role st p now).2 = Except.ok id) :
    (create_case role st p now).1.cases = st.cases ++ [(id, ⟨p, none⟩)] ∧
    (∀ q ∈ (create_case role st p now).1.cases, q ∉ st.cases → q.2.doc.status = p.status) := by
  obtain ⟨hid, hst⟩ := create_case_ok_eq role st p now id h
  subst hid
  rw [hst]
  refine ⟨rfl, ?_⟩
  intro q hq hnot
  simp only [List.mem_append, List.mem_singleton] at hq
  rcases hq with hq | hq
  · exact absurd hq hnot
  · rw [hq]

/-- C3 witness at a concrete payload with status "New". -/
theorem create_case_persists_payload_status_witness :
    (create_case "assistant" emptyStore ⟨"", "Will", "Will", "New", none, none, none⟩
      (hourDT 0)).1.cases =
      emptyStore.cases ++ [(genId 0, ⟨⟨"", "Will", "Will", "New", none, none, none⟩, none⟩)] ∧
    (∀ q ∈ (create_case "assistant" emptyStore ⟨"", "Will", "Will", "New", none, none, none⟩
      (hourDT 0)).1.cases, q ∉ emptyStore.cases → q.2.doc.status = "New") :=
  create_case_persists_payload_status "assistant" emptyStore
    ⟨"", "Will", "Will", "New", none, none, none⟩ (hourDT 0) (genId 0) (by decide)

/-! ### C4 -/

/-- A valid `Appointment` payload whose status field is "Cancelled". -/
def cancelledPayload : Appointment := sampleAppt 9 10 "Cancelled"

/-- C4 counterexample: the public booking endpoint accepts the
pydantic-valid payload whose status field is "Cancelled" and persists it
with status "Cancelled", not "Scheduled". -/
theorem book_status_scheduled_cex :
    cancelledPayload.status ∈ appointmentStatusValues ∧
    (public_create_appointment emptyStore cancelledPayload (hourDT 0)).2 =
      Except.ok (genId 0) ∧
    ((public_create_appointment emptyStore cancelledPayload (hourDT 0)).1.appointments.map
      (fun q => q.2.status)) = ["Cancelled"] := by
  decide

/-- C4 amended: on success the booking endpoint persists the payload
record verbatim, so the stored status equals the payload's status field
— "Scheduled" only because pydantic defaults the field to "Scheduled"
when the request omits it, not because the endpoint sets it. -/
theorem book_persists_payload_status (st : Store) (p : Appointment) (now : DateTime)
    (id : String) (h : (public_create_appointment st p now).2 = Except.ok id) :
    (public_create_appointment st p now).1.appointments = st.appointments ++ [(id, p)] ∧
    (∀ q ∈ (public_create_appointment st p now).1.appointments,
      q ∉ st.appointments → q.2.status = p.status) := by
  obtain ⟨hid, hst⟩ := public_create_appointment_ok_eq st p now id h
  subst hid
  rw [hst]
  refine ⟨rfl, ?_⟩
  intro q hq hnot
  simp only [List.mem_append, List.mem_singleton] at hq
  rcases hq with hq | hq
  · exact absurd hq hnot
  · rw [hq]

/-- C4 witness at a concrete payload with status "Scheduled". -/
theorem book_persists_payload_status_witness :
    (public_create_appointment emptyStore (sampleAppt 14 15 "Scheduled")
      (hourDT 0)).1.appointments =
      emptyStore.appointments ++ [(genId 0, sampleAppt 14 15 "Scheduled")] ∧
    (∀ q ∈ (public_create_appointment emptyStore (sampleAppt 14 15 "Scheduled")
      (hourDT 0)).1.appointments,
      q ∉ emptyStore.appointments → q.2.status = (sampleAppt 14 15 "Scheduled").status) :=
  book_persists_payload_status emptyStore (sampleAppt 14 15 "Scheduled") (hourDT 0) (genId 0)
    (by decide)

/-! ### C5 -/

/-- C5 counterexample: a notary-role caller creates a case, yet the
emitted audit record carries actor_role "assistant". -/
theorem create_case_audit_actor_cex :
    (create_case "notary" emptyStore draftPayload (hourDT 0)).2 = Except.ok (genId 0) ∧
    ((create_case "notary" emptyStore draftPayload (hourDT 0)).1.auditlogs.map
      (fun q => q.2.log.actor_role)) = ["assistant"] ∧
    "assistant" ≠ "notary" := by
  decide

/-- C5 amended: on every successful `create_case` the single appended
audit record has actor_role "assistant", regardless of the caller's
role. -/
theorem create_case_audit_actor_assistant (role : String) (st : Store) (p : Case)
    (now : DateTime) (id : String) (h : (create_case role st p now).2 = Except.ok id) :
    (create_case role st p now).1.auditlogs = st.auditlogs ++
      [(genId (st.nextId + 1), ⟨⟨"assistant", none, "create", "case", some id, none⟩, now⟩)] := by
  obtain ⟨hid, hst⟩ := create_case_ok_eq role st p now id h
  subst hid
  rw [hst]

/-- C5 witness: the notary-role caller still yields an "assistant"
audit record. -/
theorem create_case_audit_actor_assistant_witness :
    (create_case "notary" emptyStore draftPayload (hourDT 0)).1.auditlogs =
      emptyStore.auditlogs ++
      [(genId 1, ⟨⟨"assistant", none, "create", "case", some (genId 0), none⟩, hourDT 0⟩)] :=
  create_case_audit_actor_assistant "notary" emptyStore draftPayload (hourDT 0) (genId 0)
    (by decide)

/-! ### C6 -/

/-- Payload referencing a client id that is the empty string. -/
def ghostPayload : Case := ⟨"", "Estate", "Affidavit", "New", none, none, none⟩

/-- Payload referencing the malformed client id "zz". -/
def badCidPayload : Case := ⟨"zz", "Estate", "Affidavit", "New", none, none, none⟩

/-- C6 counterexample: with no clients stored, a payload whose given
client_id is "" is persisted successfully instead of failing with
NotFoundError, and a payload whose given client_id is the malformed
"zz" fails with the 400 invalid-id error, not the 404 NotFoundError. -/
theorem create_case_missing_client_cex :
    emptyStore.clients = [] ∧
    (create_case "notary" emptyStore ghostPayload (hourDT 0)).2 = Except.ok (genId 0) ∧
    (create_case "notary" emptyStore ghostPayload (hourDT 0)).1.cases ≠ [] ∧
    (create_case "notary" emptyStore badCidPayload (hourDT 0)).2 =
      Except.error ⟨400, "Invalid id or bson not available"⟩ := by
  decide

/-- C6 amended: for an authorized caller, a non-empty, well-formed
(24-hex-char) client_id naming no existing Client makes `create_case`
fail with NotFoundError and leave the store untouched (no Case, no
audit record); an empty client_id skips the check entirely, and a
malformed non-empty client_id fails with the invalid-id
InvalidArgumentError instead. -/
theorem create_case_nonexistent_client_404 (role : String) (st : Store) (p : Case)
    (now : DateTime) (hrole : roleAllowed ["notary", "assistant"] role = true)
    (hne : p.client_id ≠ "") (hv : isValidOid p.client_id = true)
    (habs : ∀ q ∈ st.clients, q.1 ≠ p.client_id) :
    create_case role st p now = (st, Except.error ⟨404, "Client not found"⟩) := by
  have hemp : (st.clients.filter (fun q => q.1 = p.client_id)).isEmpty = true := by
    rw [List.isEmpty_iff, List.filter_eq_nil_iff]
    intro q hq
    simpa using habs q hq
  unfold create_case oid
  simp [hrole, hne, hv, hemp]

/-- C6 witness at a store holding one client with a different id. -/
def lonelyClient : Client := ⟨"Ada", "Stone", "ada@example.com", none, none, none, none, none⟩

def oneClientStore : Store :=
  ⟨[("bbbbbbbbbbbbbbbbbbbbbbbb", lonelyClient)], [], [], [], 3⟩

theorem create_case_nonexistent_client_404_witness :
    create_case "assistant" oneClientStore
      ⟨"cccccccccccccccccccccccc", "Estate", "Affidavit", "New", none, none, none⟩ (hourDT 0) =
      (oneClientStore, Except.error ⟨404, "Client not found"⟩) :=
  create_case_nonexistent_client_404 "assistant" oneClientStore
    ⟨"cccccccccccccccccccccccc", "Estate", "Affidavit", "New", none, none, none⟩ (hourDT 0)
    (by decide) (by decide) (by decide) (by decide)

/-! ### C10 -/

/-- C10: an authorized `create_case` whose client_id is the empty string
skips the client-existence check and persists the Case even though no
Client with that id exists. -/
theorem create_case_empty_client_id_skips_check (role : String) (st : Store) (p : Case)
    (now : DateTime) (hrole : roleAllowed ["notary", "assistant"] role = true)
    (hcid : p.client_id = "") (habs : ∀ q ∈ st.clients, q.1 ≠ "") :
    (create_case role st p now).2 = Except.ok (genId st.nextId) ∧
    (create_case role st p now).1.cases = st.cases ++ [(genId st.nextId, ⟨p, none⟩)] := by
  unfold create_case
  simp [hrole, hcid, createCaseDoc, createAuditDoc]

/-- C10 witness: empty client_id, clientless store, case persisted. -/
theorem create_case_empty_client_id_skips_check_witness :
    (create_case "notary" emptyStore ghostPayload (hourDT 0)).2 = Except.ok (genId 0) ∧
    (create_case "notary" emptyStore ghostPayload (hourDT 0)).1.cases =
      emptyStore.cases ++ [(genId 0, ⟨ghostPayload, none⟩)] :=
  create_case_empty_client_id_skips_check "notary" emptyStore ghostPayload (hourDT 0)
    (by decide) (by decide) (by decide)

/-! ### C7 -/

theorem updateFirstCase_no_match (l : List (String × StoredCase)) (cid status : String)
    (now : DateTime) (h : ∀ q ∈ l, q.1 ≠ cid) :
    updateFirstCase l cid status now = l := by
  induction l with
  | nil => rfl
  | cons p rest ih =>
    have hp : p.1 ≠ cid := h p (List.mem_cons_self p rest)
    simp only [updateFirstCase, if_neg hp]
    rw [ih (fun q hq => h q (List.mem_cons_of_mem p hq))]

/-- C7 counterexample: no case with id "zz" exists (the store is empty),
the requested status "New" is in the enum, yet `update_case_status`
fails with the 400 invalid-id error rather than NotFoundError. -/
theorem update_status_notfound_cex :
    emptyStore.cases = [] ∧
    "New" ∈ caseStatusValues ∧
    (update_case_status "notary" emptyStore "zz" "New" (hourDT 0)).2 =
      Except.error ⟨400, "Invalid id or bson not available"⟩ := by
  decide

/-- C7 amended: for an authorized caller, a status outside the enum
fails with InvalidArgumentError; with a valid status, a malformed case
id fails with the invalid-id InvalidArgumentError, and a well-formed
(24-hex-char) id matching no stored case fails with NotFoundError; in
every failure case the store — cases included — is returned unchanged
and no audit record is appended. -/
theorem update_case_status_failures (role : String) (st : Store) (cid status : String)
    (now : DateTime) (hrole : roleAllowed ["notary", "assistant"] role = true) :
    (caseStatusValues.contains status = false →
      update_case_status role st cid status now = (st, Except.error ⟨400, "Invalid status"⟩)) ∧
    (caseStatusValues.contains status = true → isValidOid cid = false →
      update_case_status role st cid status now =
        (st, Except.error ⟨400, "Invalid id or bson not available"⟩)) ∧
    (caseStatusValues.contains status = true → isValidOid cid = true →
      (∀ q ∈ st.cases, q.1 ≠ cid) →
      update_case_status role st cid status now =
        (st, Except.error ⟨404, "Case not found"⟩)) := by
  refine ⟨?_, ?_, ?_⟩
  · intro hs
    have hs2 : status ∉ caseStatusValues := by simpa using hs
    unfold update_case_status
    simp [hrole, hs2]
  · intro hs hv
    have hs2 : status ∈ caseStatusValues := by simpa using hs
    unfold update_case_status oid
    simp [hrole, hs2, hv]
  · intro hs hv habs
    have hs2 : status ∈ caseStatusValues := by simpa using hs
    have hmatch : st.cases.any (fun q => q.1 = cid) = false := by
      rw [List.any_eq_false]
      intro q hq
      simpa using habs q hq
    unfold update_case_status oid
    simp [hrole, hs2, hv, hmatch, updateFirstCase_no_match st.cases cid status now habs]

/-- C7 witness: the three failure modes at concrete inputs against a
store holding one case under a different id. -/
def oneCaseStore : Store :=
  ⟨[], [("dddddddddddddddddddddddd", ⟨⟨"", "Estate", "Affidavit", "New", none, none, none⟩,
    none⟩)], [], [], 7⟩

theorem update_case_status_failures_witness :
    (update_case_status "notary" oneCaseStore "dddddddddddddddddddddddd" "Bogus" (hourDT 0) =
      (oneCaseStore, Except.error ⟨400, "Invalid status"⟩)) ∧
    (update_case_status "notary" oneCaseStore "zz" "New" (hourDT 0) =
      (oneCaseStore, Except.error ⟨400, "Invalid id or bson not available"⟩)) ∧
    (update_case_status "notary" oneCaseStore "eeeeeeeeeeeeeeeeeeeeeeee" "New" (hourDT 0) =
      (oneCaseStore, Except.error ⟨404, "Case not found"⟩)) :=
  ⟨(update_case_status_failures "notary" oneCaseStore "dddddddddddddddddddddddd" "Bogus"
      (hourDT 0) (by decide)).1 (by decide),
    (update_case_status_failures "notary" oneCaseStore "zz" "New" (hourDT 0) (by decide)).2.1
      (by decide) (by decide),
    (update_case_status_failures "notary" oneCaseStore "eeeeeeeeeeeeeeeeeeeeeeee" "New"
      (hourDT 0) (by decide)).2.2 (by decide) (by decide) (by decide)⟩

/-! ### C8 -/

/-- Fixture store for C8: two appointments inside 2024-01-01 (out of
ascending order) and one on 2024-01-02. -/
def wApptStore : Store :=
  ⟨[], [],
    [("i1", sampleAppt 12 13 "Scheduled"),
      ("i2", ⟨none, "notarization", ⟨2024, 1, 2, 9, 0, 0⟩, ⟨2024, 1, 2, 10, 0, 0⟩, none, none,
        "Scheduled", none⟩),
      ("i3", sampleAppt 8 9 "Scheduled")],
    [], 0⟩

/-- C8 counterexample: the empty day string is malformed as a date
(`strptime` rejects it), yet `list_appointments` does not fail with the
400 InvalidArgumentError: the Python truthiness guard `if day:` treats
"" as absent and returns a 200 whose list is a permutation of the whole
collection — the 2024-01-02 appointment included, nothing filtered. -/
theorem list_appointments_empty_day_cex :
    parseDay "" = none ∧
    list_appointments "notary" wApptStore (some "") ≠
      Except.error ⟨400, "Invalid day format"⟩ ∧
    (∃ l, list_appointments "notary" wApptStore (some "") = Except.ok l ∧
      l.Perm (wApptStore.appointments.map Prod.snd)) := by
  have h0 : list_appointments "notary" wApptStore (some "") =
      Except.ok ((wApptStore.appointments.map Prod.snd).mergeSort byStartTime) := rfl
  refine ⟨by decide, ?_, ⟨_, h0, List.mergeSort_perm _ _⟩⟩
  rw [h0]
  simp

/-- C8 amended: for an authorized caller, `list_appointments` with a
present-but-empty day string behaves as if no day were given and
returns every stored appointment ascending; a non-empty malformed day
string fails with InvalidArgumentError; and a day parsing to (y, m, d)
returns exactly the stored appointments whose start_time lies in
[day 00:00, day+1 00:00) (a permutation of that filter), in ascending
start-time order. -/
theorem list_appointments_day_spec (role : String) (st : Store) (day : String)
    (hrole : roleAllowed ["notary", "assistant"] role = true) :
    (day = "" →
      ∃ l, list_appointments role st (some day) = Except.ok l ∧
        l.Perm (st.appointments.map Prod.snd) ∧
        l.Pairwise (fun a b => DateTime.leb a.start_time b.start_time = true)) ∧
    (day ≠ "" → parseDay day = none →
      list_appointments role st (some day) = Except.error ⟨400, "Invalid day format"⟩) ∧
    (∀ y m d, parseDay day = some (y, m, d) →
      ∃ l, list_appointments role st (some day) = Except.ok l ∧
        l.Perm ((st.appointments.map Prod.snd).filter
          (fun a => DateTime.leb (dayStart y m d) a.start_time &&
            DateTime.ltb a.start_time (nextDayStart y m d))) ∧
        l.Pairwise (fun a b => DateTime.leb a.start_time b.start_time = true)) := by
  refine ⟨?_, ?_, ?_⟩
  · intro he
    unfold list_appointments
    simp only [hrole, Bool.not_true, Bool.false_eq_true, if_false, he, if_true]
    refine ⟨_, rfl, ?_, ?_⟩
    · exact List.mergeSort_perm _ _
    · exact List.sorted_mergeSort byStartTime_trans byStartTime_total _
  · intro he hp
    unfold list_appointments
    simp [hrole, he, hp]
  · intro y m d hp
    have he : day ≠ "" := by
      intro h
      rw [h] at hp
      simp [parseDay, List.splitOn] at hp
    unfold list_appointments
    simp only [hrole, Bool.not_true, Bool.false_eq_true, if_false, if_neg he, hp]
    refine ⟨_, rfl, ?_, ?_⟩
    · exact List.mergeSort_perm _ _
    · exact List.sorted_mergeSort byStartTime_trans byStartTime_total _

/-- C8 witness: the empty day returns the full list, the non-empty
malformed day "2024-1" is rejected, and the day "2024-01-01" yields the
in-range appointments ascending. -/
theorem list_appointments_day_spec_witness :
    (∃ l, list_appointments "notary" wApptStore (some "") = Except.ok l ∧
      l.Perm (wApptStore.appointments.map Prod.snd) ∧
      l.Pairwise (fun a b => DateTime.leb a.start_time b.start_time = true)) ∧
    (list_appointments "notary" wApptStore (some "2024-1") =
      Except.error ⟨400, "Invalid day format"⟩) ∧
    ∃ l, list_appointments "notary" wApptStore (some "2024-01-01") = Except.ok l ∧
      l.Perm ((wApptStore.appointments.map Prod.snd).filter
        (fun a => DateTime.leb (dayStart 2024 1 1) a.start_time &&
          DateTime.ltb a.start_time (nextDayStart 2024 1 1))) ∧
      l.Pairwise (fun a b => DateTime.leb a.start_time b.start_time = true) :=
  ⟨(list_appointments_day_spec "notary" wApptStore "" (by decide)).1 rfl,
    (list_appointments_day_spec "notary" wApptStore "2024-1" (by decide)).2.1 (by decide)
      (by decide),
    (list_appointments_day_spec "notary" wApptStore "2024-01-01" (by decide)).2.2 2024 1 1
      (by decide)⟩

/-! ### C9 -/

theorem countP_disjoint_le_length {α : Type} (p q : α → Bool) (l : List α)
    (h : ∀ a, p a = true → q a = false) :
    l.countP p + l.countP q ≤ l.length := by
  induction l with
  | nil => simp
  | cons a l ih =>
    rw [List.countP_cons, List.countP_cons, List.length_cons]
    cases hp : p a
    · cases hq : q a <;> simp [hp, hq] <;> omega
    · have hq := h a hp
      simp [hp, hq]
      omega

/-- C9: for every store state and authorized caller, the dashboard's
open-case count (statuses New/Draft/Waiting Signature) plus its
completed-case count is at most the number of stored cases, and its
recent activity holds at most 10 audit records in descending
creation-timestamp order. -/
theorem dashboard_bounds (role : String) (st : Store) (now : DateTime) (s : DashboardSummary)
    (hrole : roleAllowed ["notary", "assistant"] role = true)
    (h : dashboard role st now = Except.ok s) :
    s.open_cases + s.completed_cases ≤ st.cases.length ∧
    s.recent_activity.length ≤ 10 ∧
    s.recent_activity.Pairwise (fun a b => DateTime.leb b.created_at a.created_at = true) := by
  unfold dashboard at h
  simp only [hrole, Bool.not_true, Bool.false_eq_true, if_false, Except.ok.injEq] at h
  subst h
  refine ⟨?_, ?_, ?_⟩
  · have hdisj : ∀ c : StoredCase,
        (["New", "Draft", "Waiting Signature"].contains c.doc.status) = true →
        (decide (c.doc.status = "Completed")) = false := by
      intro c hc
      have hmem : c.doc.status ∈ ["New", "Draft", "Waiting Signature"] := by simpa using hc
      simp only [List.mem_cons, List.mem_singleton, List.not_mem_nil, or_false] at hmem
      rcases hmem with h1 | h1 | h1 <;> rw [h1] <;> decide
    have := countP_disjoint_le_length _ _ (st.cases.map Prod.snd) hdisj
    simpa [List.length_map] using this
  · simp [List.length_take]
  · exact List.Pairwise.sublist (List.take_sublist _ _)
      (List.sorted_mergeSort byCreatedAtDesc_trans byCreatedAtDesc_total _)

/-- Fixture store for the C9 witness. -/
def wDashStore : Store :=
  ⟨[],
    [("k1", ⟨⟨"", "A", "Affidavit", "New", none, none, none⟩, none⟩),
      ("k2", ⟨⟨"", "B", "Affidavit", "Completed", none, none, none⟩, none⟩),
      ("k3", ⟨⟨"", "C", "Affidavit", "Archived", none, none, none⟩, none⟩)],
    [("a1", sampleAppt 9 10 "Scheduled")],
    [("g1", ⟨⟨"assistant", none, "create", "case", some "k1", none⟩, hourDT 5⟩),
      ("g2", ⟨⟨"client", none, "book", "appointment", some "a1", none⟩, hourDT 7⟩)],
    9⟩

/-- C9 witness at the concrete fixture store. -/
theorem dashboard_bounds_witness :
    ∃ s, dashboard "notary" wDashStore (hourDT 12) = Except.ok s ∧
      s.open_cases + s.completed_cases ≤ wDashStore.cases.length ∧
      s.recent_activity.length ≤ 10 ∧
      s.recent_activity.Pairwise (fun a b => DateTime.leb b.created_at a.created_at = true) :=
  ⟨_, rfl, dashboard_bounds "notary" wDashStore (hourDT 12) _ (by decide) rfl⟩
